import Mathlib

/-!
Shallow embedding of `src/hbuzz.py` (SteamBuzzer): a Steam Deck haptic driver.

The program has two pure-ish parts — a device locator (`find_steam_deck_controller`)
and a report encoder (`send_haptic_pulse`) — plus a driver loop in `main`.
Python effects are modelled explicitly:
* `struct.pack('<BBBHHH', ...)` range-checks every field (Python 3 raises
  `struct.error` when a `B` value exceeds 0xFF or an `H` value exceeds 0xFFFF);
  a raised exception is modelled as `none`.  Values are Python non-negative
  ints, modelled as `Nat`.
* `device.write` can raise; `send_haptic_pulse` catches every such exception
  and prints an error line.  Write outcomes are supplied by an oracle
  `fails : Nat → Bool` indexed by the global write counter; each attempted
  write is recorded as an `Event.write` and each caught failure as an
  `Event.log`.
* `main`'s environment (whether `import hid` succeeds, whether `device.open`
  succeeds, and after how many completed loop iterations the user interrupt
  arrives) is a parameter `Env`; `runMain` returns the process exit status and
  the trace of device events.
-/

/-- Byte 0 of every haptic report (source constant `HAPTIC_CMD`). -/
def HAPTIC_CMD : Nat := 0x8f

/-- Byte 1 of every haptic report (source constant `HAPTIC_SUBCMD`). -/
def HAPTIC_SUBCMD : Nat := 0x07

/-- Little-endian encoding of a `struct` `H` field (the value has already
passed the `0 ≤ v ≤ 0xFFFF` range check, so two bytes suffice). -/
def encodeU16LE (v : Nat) : List Nat := [v % 256, v / 256]

/-- Little-endian decoding of a 2-byte field: low byte plus 256 times high byte. -/
def decodeU16LE (lo hi : Nat) : Nat := lo + 256 * hi

/-- Python `struct.pack('<BBBHHH', b0, b1, b2, h0, h1, h2)`.
Python 3 `struct` range-checks each argument against its field width
(`B`: `0..0xFF`, `H`: `0..0xFFFF`) and raises `struct.error` otherwise
(modelled as `none`); it does NOT truncate or wrap. -/
def structPackBBBHHH (b0 b1 b2 h0 h1 h2 : Nat) : Option (List Nat) :=
  if b0 ≤ 0xff ∧ b1 ≤ 0xff ∧ b2 ≤ 0xff ∧
     h0 ≤ 0xffff ∧ h1 ≤ 0xffff ∧ h2 ≤ 0xffff then
    some ([b0, b1, b2] ++ encodeU16LE h0 ++ encodeU16LE h1 ++ encodeU16LE h2)
  else
    none

/-- The pad-id list computed at the top of `send_haptic_pulse`:
`'both'` → `[0x00, 0x01]` (right then left), `'left'` → `[0x01]`,
anything else → `[0x00]`. -/
def padIds (pad : String) : List Nat :=
  if pad = "both" then [0x00, 0x01]
  else if pad = "left" then [0x01]
  else [0x00]

/-- One loop body of `send_haptic_pulse` up to the write: pack the header,
pad id and the three 16-bit parameters, then pad the message with zero
bytes up to 64 (`message += b'\x00' * (64 - len(message))`). -/
def buildMessage (pad_id amplitude period cnt : Nat) : Option (List Nat) :=
  (structPackBBBHHH HAPTIC_CMD HAPTIC_SUBCMD pad_id amplitude period cnt).map
    (fun m => m ++ List.replicate (64 - m.length) 0)

/-- Observable device/console events of the program. -/
inductive Event where
  | write (msg : List Nat)
  | log (s : String)
  | close
deriving DecidableEq, Repr

/-- The error line printed when `device.write` raises. -/
def errMsg : String := "Error sending haptic command"

/-- Extract the payload of a write event. -/
def writeMsg : Event → Option (List Nat)
  | Event.write msg => some msg
  | _ => none

/-- The reports written (attempted) in a trace, in order. -/
def writes (evs : List Event) : List (List Nat) := evs.filterMap writeMsg

/-- The `for pad_id in pads` loop of `send_haptic_pulse`: for each pad id,
pack the message (a `struct.error` propagates: `none`), attempt the write,
and on a write failure print the error line and continue with the next pad.
`idx` is the global write counter consulting the failure oracle. -/
def sendPads (fails : Nat → Bool) (amplitude period cnt : Nat) :
    List Nat → Nat → Option (List Event × Nat)
  | [], idx => some ([], idx)
  | pad_id :: rest, idx =>
    match buildMessage pad_id amplitude period cnt with
    | none => none
    | some msg =>
      match sendPads fails amplitude period cnt rest (idx + 1) with
      | none => none
      | some (tail, idx') =>
        some (Event.write msg ::
          (if fails idx then Event.log errMsg :: tail else tail), idx')

/-- `send_haptic_pulse(device, pad, amplitude, period, count)`: computes the
pad-id list from the selector and runs the write loop.  Returns the emitted
event trace and the advanced write counter, or `none` when `struct.pack`
raised (the only exception that escapes the function). -/
def send_haptic_pulse (fails : Nat → Bool) (idx : Nat) (pad : String)
    (amplitude period cnt : Nat) : Option (List Event × Nat) :=
  sendPads fails amplitude period cnt (padIds pad) idx

/-- One entry of the list returned by `hid.enumerate`. -/
structure DeviceInfo where
  vendor_id : Nat
  product_id : Nat
  interface_number : Nat
  path : String
deriving DecidableEq, Repr

/-- A hidapi device handle.  `hid.device()` constructs a fresh handle that is
not yet open and not associated with any enumerated device. -/
structure DeviceHandle where
  isOpen : Bool
  path : Option String
deriving DecidableEq, Repr

/-- `hid.device()`: a fresh, unopened, unbound handle. -/
def hidDevice : DeviceHandle := { isOpen := false, path := none }

/-- `hid.enumerate(vid, pid)`: the attached devices matching the given
vendor and product ids.  `allDevices` models the host's device list. -/
def hidEnumerate (allDevices : List DeviceInfo) (vid pid : Nat) : List DeviceInfo :=
  allDevices.filter (fun d => d.vendor_id == vid && d.product_id == pid)

/-- The Valve vendor id used by the source. -/
def VALVE_VENDOR_ID : Nat := 0x28de

/-- The Steam Deck product id used by the source. -/
def STEAM_DECK_PRODUCT_ID : Nat := 0x1205

/-- `find_steam_deck_controller()`: enumerate devices matching
vendor/product, and upon the first one whose `interface_number` is 2 return
`hid.device()` — a fresh unopened handle, not opened and not bound to the
matched device; return `None` when no match has interface 2. -/
def find_steam_deck_controller (allDevices : List DeviceInfo) : Option DeviceHandle :=
  match (hidEnumerate allDevices VALVE_VENDOR_ID STEAM_DECK_PRODUCT_ID).find?
      (fun d => d.interface_number == 2) with
  | some _ => some hidDevice
  | none => none

/-- The environment `main` runs in: whether `import hid` succeeds, whether
`device.open` succeeds, after how many completed loop iterations the
`KeyboardInterrupt` is delivered (during the `time.sleep`), and which
writes (by global index) raise. -/
structure Env where
  hidAvailable : Bool
  openSucceeds : Bool
  interruptAfter : Nat
  writeFails : Nat → Bool

/-- The `while True` loop of `main`, run for `n` iterations (the interrupt
arrives during the sleep of iteration `n`); each iteration calls
`send_haptic_pulse(device, pad='both', amplitude=0x8000, period=0x0032,
count=4000)`. -/
def runLoop (fails : Nat → Bool) : Nat → Nat → Option (List Event × Nat)
  | 0, idx => some ([], idx)
  | Nat.succ n, idx =>
    match send_haptic_pulse fails idx "both" 0x8000 0x0032 4000 with
    | none => none
    | some (evs, idx') =>
      match runLoop fails n idx' with
      | none => none
      | some (rest, idx'') => some (evs ++ rest, idx'')

/-- `main()`: exit status and device-event trace.
* `import hid` fails → `sys.exit(1)` before the device handle exists.
* `device.open` raises `OSError` → the except block calls `sys.exit(1)` and
  the `finally` block closes the handle: status 1, trace `[close]`.
* otherwise the loop runs until the interrupt; `KeyboardInterrupt` is caught,
  the `finally` closes the handle, `main` returns: status 0.
  (A `struct.error` escaping the loop would close the handle and terminate
  with a nonzero status; with `main`'s fixed in-range parameters this path
  is unreachable.) -/
def runMain (env : Env) : Nat × List Event :=
  if env.hidAvailable = false then (1, [])
  else if env.openSucceeds = false then (1, [Event.close])
  else
    match runLoop env.writeFails env.interruptAfter 0 with
    | none => (1, [Event.close])
    | some (evs, _) => (0, evs ++ [Event.close])

/-- The explicit 64-byte layout that `buildMessage` produces for in-range
arguments: header, pad id, three little-endian 16-bit fields, zero padding. -/
def fullMessage (pad_id amplitude period cnt : Nat) : List Nat :=
  [HAPTIC_CMD, HAPTIC_SUBCMD, pad_id,
   amplitude % 256, amplitude / 256,
   period % 256, period / 256,
   cnt % 256, cnt / 256] ++ List.replicate 55 0

/-- `true` exactly on the close event. -/
def eventIsClose : Event → Bool
  | Event.close => true
  | _ => false

lemma buildMessage_eq (pad_id amplitude period cnt : Nat)
    (hb : pad_id ≤ 0xff) (ha : amplitude ≤ 0xffff) (hp : period ≤ 0xffff)
    (hc : cnt ≤ 0xffff) :
    buildMessage pad_id amplitude period cnt =
      some (fullMessage pad_id amplitude period cnt) := by
  unfold buildMessage structPackBBBHHH
  rw [if_pos ⟨by norm_num [HAPTIC_CMD], by norm_num [HAPTIC_SUBCMD], hb, ha, hp, hc⟩]
  simp [fullMessage, encodeU16LE, HAPTIC_CMD, HAPTIC_SUBCMD]

lemma fullMessage_length (pad_id amplitude period cnt : Nat) :
    (fullMessage pad_id amplitude period cnt).length = 64 := by
  simp [fullMessage]

lemma padIds_le (pad : String) : ∀ p ∈ padIds pad, p ≤ 0xff := by
  intro p hp
  by_cases h1 : pad = "both"
  · simp [padIds, h1] at hp
    rcases hp with h | h <;> omega
  · by_cases h2 : pad = "left"
    · simp [padIds, h1, h2] at hp
      omega
    · simp [padIds, h1, h2] at hp
      omega

lemma sendPads_spec (fails : Nat → Bool) (amplitude period cnt : Nat)
    (ha : amplitude ≤ 0xffff) (hp : period ≤ 0xffff) (hc : cnt ≤ 0xffff) :
    ∀ pids : List Nat, (∀ p ∈ pids, p ≤ 0xff) → ∀ idx : Nat,
      ∃ evs : List Event,
        sendPads fails amplitude period cnt pids idx = some (evs, idx + pids.length) ∧
        writes evs = pids.map (fun pid => fullMessage pid amplitude period cnt) ∧
        Event.close ∉ evs ∧
        (∀ i, idx ≤ i → i < idx + pids.length → fails i = true →
          Event.log errMsg ∈ evs) := by
  intro pids
  induction pids with
  | nil =>
    intro _ idx
    refine ⟨[], by simp [sendPads], by simp [writes], by simp, ?_⟩
    intro i h1 h2 _
    exfalso
    simp only [List.length_nil] at h2
    omega
  | cons p rest ih =>
    intro hple idx
    obtain ⟨tail, h1, h2, h3, h4⟩ :=
      ih (fun q hq => hple q (List.mem_cons_of_mem _ hq)) (idx + 1)
    have hb := buildMessage_eq p amplitude period cnt
      (hple p (List.mem_cons_self _ _)) ha hp hc
    refine ⟨Event.write (fullMessage p amplitude period cnt) ::
      (if fails idx then Event.log errMsg :: tail else tail), ?_, ?_, ?_, ?_⟩
    · show sendPads fails amplitude period cnt (p :: rest) idx = _
      unfold sendPads
      rw [hb, h1]
      have : idx + 1 + rest.length = idx + (rest.length + 1) := by omega
      simp [this]
    · cases hf : fails idx <;>
        simp [writes, writeMsg, hf] <;>
        simpa [writes] using h2
    · cases hf : fails idx <;> simp [hf] <;> exact h3
    · intro i hi1 hi2 hfi
      simp only [List.length_cons] at hi2
      rcases Nat.eq_or_lt_of_le hi1 with rfl | hlt
      · simp [hfi]
      · have hmem : Event.log errMsg ∈ tail :=
          h4 i (by omega) (by omega) hfi
        cases hf : fails idx <;> simp [hf, hmem]

lemma padIds_both : padIds "both" = [0x00, 0x01] := rfl

lemma runLoop_spec (fails : Nat → Bool) :
    ∀ n idx : Nat, ∃ evs : List Event,
      runLoop fails n idx = some (evs, idx + 2 * n) ∧
      (writes evs).length = 2 * n ∧
      Event.close ∉ evs := by
  intro n
  induction n with
  | zero =>
    intro idx
    exact ⟨[], by simp [runLoop], by simp [writes], by simp⟩
  | succ m ih =>
    intro idx
    obtain ⟨evs1, h1, h2, h3, _⟩ :=
      sendPads_spec fails 0x8000 0x0032 4000 (by norm_num) (by norm_num) (by norm_num)
        (padIds "both") (padIds_le "both") idx
    obtain ⟨evs2, g1, g2, g3⟩ := ih (idx + 2)
    refine ⟨evs1 ++ evs2, ?_, ?_, ?_⟩
    · have hsend : send_haptic_pulse fails idx "both" 0x8000 0x0032 4000 =
          some (evs1, idx + 2) := by
        simpa [send_haptic_pulse, padIds_both] using h1
      have harith : idx + 2 + 2 * m = idx + 2 * (m + 1) := by omega
      show runLoop fails (m + 1) idx = _
      simp [runLoop, hsend, g1, harith]
    · have : (writes evs1).length = 2 := by
        rw [h2]; simp [padIds_both]
      simp only [writes, List.filterMap_append, List.length_append]
      have h2' : (writes evs2).length = 2 * m := g2
      simp only [writes] at this h2'
      omega
    · simp [h3, g3]

lemma fullMessage_getD2 (pad_id amplitude period cnt : Nat) :
    (fullMessage pad_id amplitude period cnt).getD 2 0 = pad_id := rfl

/-- C1: every report emitted by the encoder, for any pad selector and any
in-range 16-bit amplitude, period and count, is exactly 64 bytes laid out as
byte 0 = 0x8f, byte 1 = 0x07, byte 2 = pad id, bytes 3-4 = amplitude (u16 LE),
bytes 5-6 = period (u16 LE), bytes 7-8 = count (u16 LE), bytes 9-63 zero; in
particular pad='left', amplitude=0x8000, period=0x0032, count=4000 gives the
buffer 8f 07 01 00 80 32 00 a0 0f followed by 55 zero bytes. -/
theorem C1_wire_format (pad : String) (amplitude period cnt : Nat)
    (ha : amplitude ≤ 0xffff) (hp : period ≤ 0xffff) (hc : cnt ≤ 0xffff) :
    (∀ pid ∈ padIds pad, ∃ msg : List Nat,
      buildMessage pid amplitude period cnt = some msg ∧
      msg.length = 64 ∧
      msg = [0x8f, 0x07, pid, amplitude % 256, amplitude / 256,
             period % 256, period / 256, cnt % 256, cnt / 256] ++
            List.replicate 55 0) ∧
    buildMessage 0x01 0x8000 0x0032 4000 =
      some ([0x8f, 0x07, 0x01, 0x00, 0x80, 0x32, 0x00, 0xa0, 0x0f] ++
        List.replicate 55 0) := by
  constructor
  · intro pid hpid
    refine ⟨fullMessage pid amplitude period cnt,
      buildMessage_eq pid amplitude period cnt (padIds_le pad pid hpid) ha hp hc,
      fullMessage_length _ _ _ _, ?_⟩
    simp [fullMessage, HAPTIC_CMD, HAPTIC_SUBCMD]
  · rfl

/-- Witness for C1 at pad='left', amplitude=0x8000, period=0x0032, count=4000. -/
theorem C1_wire_format_witness :
    buildMessage 0x01 0x8000 0x0032 4000 =
      some ([0x8f, 0x07, 0x01, 0x00, 0x80, 0x32, 0x00, 0xa0, 0x0f] ++
        List.replicate 55 0) :=
  (C1_wire_format "left" 0x8000 0x0032 4000 (by norm_num) (by norm_num)
    (by norm_num)).2

/-- C2: for every selector in {left, right, both} and in-range parameters,
the encoder emits exactly 1 report (left/right) or exactly 2 reports (both),
each exactly 64 bytes long. -/
theorem C2_report_count (pad : String)
    (hpad : pad = "left" ∨ pad = "right" ∨ pad = "both")
    (fails : Nat → Bool) (idx amplitude period cnt : Nat)
    (ha : amplitude ≤ 0xffff) (hp : period ≤ 0xffff) (hc : cnt ≤ 0xffff) :
    ∃ evs : List Event,
      send_haptic_pulse fails idx pad amplitude period cnt =
        some (evs, idx + (padIds pad).length) ∧
      (writes evs).length = (if pad = "both" then 2 else 1) ∧
      ∀ m ∈ writes evs, m.length = 64 := by
  obtain ⟨evs, h1, h2, -, -⟩ := sendPads_spec fails amplitude period cnt ha hp hc
    (padIds pad) (padIds_le pad) idx
  refine ⟨evs, h1, ?_, ?_⟩
  · rw [h2, List.length_map]
    rcases hpad with rfl | rfl | rfl <;> simp [padIds]
  · intro m hm
    rw [h2] at hm
    simp only [List.mem_map] at hm
    obtain ⟨pid, -, rfl⟩ := hm
    exact fullMessage_length _ _ _ _

/-- Witness for C2 at pad='both'. -/
theorem C2_report_count_witness :
    ∃ evs : List Event,
      send_haptic_pulse (fun _ => false) 0 "both" 0x8000 0x0032 4000 =
        some (evs, 0 + (padIds "both").length) ∧
      (writes evs).length = (if "both" = "both" then 2 else 1) ∧
      ∀ m ∈ writes evs, m.length = 64 :=
  C2_report_count "both" (Or.inr (Or.inr rfl)) (fun _ => false) 0 0x8000 0x0032 4000
    (by norm_num) (by norm_num) (by norm_num)

/-- C3: byte 2 of the emitted report is 0x01 for 'left' and 0x00 for 'right';
for 'both' one report carries 0x00 and the other 0x01 (in that order). -/
theorem C3_pad_byte (pad : String) (fails : Nat → Bool)
    (idx amplitude period cnt : Nat)
    (ha : amplitude ≤ 0xffff) (hp : period ≤ 0xffff) (hc : cnt ≤ 0xffff) :
    ∃ evs : List Event,
      send_haptic_pulse fails idx pad amplitude period cnt =
        some (evs, idx + (padIds pad).length) ∧
      (pad = "left" → (writes evs).map (fun m => m.getD 2 0) = [0x01]) ∧
      (pad = "right" → (writes evs).map (fun m => m.getD 2 0) = [0x00]) ∧
      (pad = "both" → (writes evs).map (fun m => m.getD 2 0) = [0x00, 0x01]) := by
  obtain ⟨evs, h1, h2, -, -⟩ := sendPads_spec fails amplitude period cnt ha hp hc
    (padIds pad) (padIds_le pad) idx
  refine ⟨evs, h1, ?_, ?_, ?_⟩ <;>
  · rintro rfl
    rw [h2]
    rfl

/-- Witness for C3 at pad='both'. -/
theorem C3_pad_byte_witness :
    ∃ evs : List Event,
      send_haptic_pulse (fun _ => false) 0 "both" 0x8000 0x0032 4000 =
        some (evs, 0 + (padIds "both").length) ∧
      ("both" = "left" → (writes evs).map (fun m => m.getD 2 0) = [0x01]) ∧
      ("both" = "right" → (writes evs).map (fun m => m.getD 2 0) = [0x00]) ∧
      ("both" = "both" → (writes evs).map (fun m => m.getD 2 0) = [0x00, 0x01]) :=
  C3_pad_byte "both" (fun _ => false) 0 0x8000 0x0032 4000
    (by norm_num) (by norm_num) (by norm_num)

/-- C4 counterexample: an amplitude wider than 16 bits (0x10000) is NOT
silently truncated modulo 2^16 into a 64-byte buffer: Python 3 struct.pack
range-checks the H field and raises struct.error, so the encoder produces no
buffer at all (modelled as none). -/
theorem C4_counterexample :
    send_haptic_pulse (fun _ => false) 0 "left" 0x10000 0x0032 4000 = none := by
  rfl

/-- C4 amended: for parameters within [0, 0xFFFF] the buffer is always exactly
64 bytes; a parameter wider than 16 bits is rejected (struct.pack raises
struct.error, which escapes send_haptic_pulse), not truncated or wrapped. -/
theorem C4_field_width (pid amplitude period cnt : Nat) (hb : pid ≤ 0xff) :
    (amplitude ≤ 0xffff → period ≤ 0xffff → cnt ≤ 0xffff →
      ∃ msg : List Nat, buildMessage pid amplitude period cnt = some msg ∧
        msg.length = 64) ∧
    (0xffff < amplitude ∨ 0xffff < period ∨ 0xffff < cnt →
      buildMessage pid amplitude period cnt = none) := by
  constructor
  · intro ha hp hc
    exact ⟨fullMessage pid amplitude period cnt,
      buildMessage_eq pid amplitude period cnt hb ha hp hc,
      fullMessage_length _ _ _ _⟩
  · intro h
    unfold buildMessage structPackBBBHHH
    rw [if_neg (by rintro ⟨-, -, -, h1, h2, h3⟩; omega)]
    rfl

/-- Witness for C4: pad id 0 with an in-range and an out-of-range amplitude. -/
theorem C4_field_width_witness :
    (∃ msg : List Nat, buildMessage 0 0x8000 0x0032 4000 = some msg ∧
      msg.length = 64) ∧
    buildMessage 0 0x10000 0x0032 4000 = none :=
  ⟨(C4_field_width 0 0x8000 0x0032 4000 (by norm_num)).1
      (by norm_num) (by norm_num) (by norm_num),
   (C4_field_width 0 0x10000 0x0032 4000 (by norm_num)).2
      (Or.inl (by norm_num))⟩

/-- C5 counterexample: with exactly one attached device matching vendor
0x28de / product 0x1205 and exposing interface index 2, the locator returns a
handle that is not open and not bound to the matched device's path — refuting
"opens it for exclusive read/write, returning an open handle to that selected
device". -/
theorem C5_counterexample :
    find_steam_deck_controller
        [{ vendor_id := 0x28de, product_id := 0x1205,
           interface_number := 2, path := "dev0" }] =
      some { isOpen := false, path := none } := by
  rfl

/-- C5 amended: the locator enumerates devices matching vendor/product and,
exactly when some match exposes interface index 2, returns a fresh unopened
device handle bound to no device (otherwise a not-found outcome); it never
opens the device — the open happens separately in main, by vendor/product
alone. -/
theorem C5_locator (allDevices : List DeviceInfo) :
    find_steam_deck_controller allDevices =
      (if (hidEnumerate allDevices VALVE_VENDOR_ID STEAM_DECK_PRODUCT_ID).any
            (fun d => d.interface_number == 2) = true
       then some { isOpen := false, path := none }
       else none) := by
  unfold find_steam_deck_controller
  cases hfind : (hidEnumerate allDevices VALVE_VENDOR_ID STEAM_DECK_PRODUCT_ID).find?
      (fun d => d.interface_number == 2) with
  | none =>
    have hall := List.find?_eq_none.mp hfind
    rw [if_neg (by
      rw [List.any_eq_true]
      rintro ⟨d, hd, hpd⟩
      exact hall d hd hpd)]
  | some d =>
    have hmem : d ∈ hidEnumerate allDevices VALVE_VENDOR_ID STEAM_DECK_PRODUCT_ID :=
      List.mem_of_find?_eq_some hfind
    have hpd : (d.interface_number == 2) = true :=
      @List.find?_some _ (fun e => e.interface_number == 2) d _ hfind
    rw [if_pos (by
      rw [List.any_eq_true]
      exact ⟨d, hmem, hpd⟩)]
    rfl

lemma eventIsClose_iff (e : Event) : eventIsClose e = true ↔ e = Event.close := by
  cases e <;> simp [eventIsClose]

/-- C6: the exit status is nonzero whenever the HID library is missing or the
device open fails, and zero when the program terminates via user interrupt;
when the open fails, no write to the device is ever attempted. -/
theorem C6_exit_status (env : Env) :
    ((env.hidAvailable = false ∨ env.openSucceeds = false) → (runMain env).1 ≠ 0) ∧
    (env.hidAvailable = true → env.openSucceeds = true → (runMain env).1 = 0) ∧
    (env.openSucceeds = false → ∀ msg : List Nat,
      Event.write msg ∉ (runMain env).2) := by
  obtain ⟨hav, os, n, wf⟩ := env
  cases hav with
  | false => cases os <;> simp [runMain]
  | true =>
    cases os with
    | false => simp [runMain]
    | true =>
      obtain ⟨evs, h1, -, -⟩ := runLoop_spec wf n 0
      simp [runMain, h1]

/-- Witness for C6: failed open gives nonzero status; interrupt gives zero. -/
theorem C6_exit_status_witness :
    ((runMain ⟨true, false, 5, fun _ => false⟩).1 ≠ 0) ∧
    ((runMain ⟨true, true, 5, fun _ => false⟩).1 = 0) ∧
    Event.write (fullMessage 0 1 1 1) ∉ (runMain ⟨true, false, 5, fun _ => false⟩).2 :=
  ⟨(C6_exit_status _).1 (Or.inr rfl),
   (C6_exit_status _).2.1 rfl rfl,
   (C6_exit_status _).2.2 rfl _⟩

/-- C7: a failed device write is caught and logged and never aborts the loop:
for every pattern of write failures the function returns normally, attempts
exactly the reports the pad list prescribes — the same ones as in a
failure-free run, with no retry — and each failed write leaves a log line. -/
theorem C7_write_failure (fails : Nat → Bool) (idx : Nat) (pad : String)
    (amplitude period cnt : Nat)
    (ha : amplitude ≤ 0xffff) (hp : period ≤ 0xffff) (hc : cnt ≤ 0xffff) :
    ∃ evs : List Event,
      send_haptic_pulse fails idx pad amplitude period cnt =
        some (evs, idx + (padIds pad).length) ∧
      writes evs = (padIds pad).map (fun pid => fullMessage pid amplitude period cnt) ∧
      (∀ i, idx ≤ i → i < idx + (padIds pad).length → fails i = true →
        Event.log errMsg ∈ evs) := by
  obtain ⟨evs, h1, h2, -, h4⟩ := sendPads_spec fails amplitude period cnt ha hp hc
    (padIds pad) (padIds_le pad) idx
  exact ⟨evs, h1, h2, h4⟩

/-- Witness for C7: every write fails, yet both reports are attempted and a
log line is present. -/
theorem C7_write_failure_witness :
    ∃ evs : List Event,
      send_haptic_pulse (fun _ => true) 0 "both" 0x8000 0x0032 4000 =
        some (evs, 0 + (padIds "both").length) ∧
      writes evs = (padIds "both").map (fun pid => fullMessage pid 0x8000 0x0032 4000) ∧
      (∀ i, 0 ≤ i → i < 0 + (padIds "both").length → (fun _ => true) i = true →
        Event.log errMsg ∈ evs) :=
  C7_write_failure (fun _ => true) 0 "both" 0x8000 0x0032 4000
    (by norm_num) (by norm_num) (by norm_num)

/-- C8: once the device handle exists, every exit path closes it exactly
once; an interrupt delivered after N completed loop iterations yields exactly
N write cycles (each cycle is one 'both' pulse, i.e. two write events) and
exactly one close. -/
theorem C8_close_once (env : Env) (h : env.hidAvailable = true) :
    ((runMain env).2.countP eventIsClose = 1) ∧
    (env.openSucceeds = true →
      (writes (runMain env).2).length = 2 * env.interruptAfter) := by
  obtain ⟨hav, os, n, wf⟩ := env
  simp only at h
  subst h
  cases os with
  | false =>
    constructor
    · rfl
    · intro hcontra
      exact absurd hcontra (by simp)
  | true =>
    obtain ⟨evs, h1, h2, h3⟩ := runLoop_spec wf n 0
    have hzero : evs.countP eventIsClose = 0 := by
      rw [List.countP_eq_zero]
      intro e he
      rw [eventIsClose_iff]
      intro hcl
      exact h3 (hcl ▸ he)
    have htrace : (runMain ⟨true, true, n, wf⟩).2 = evs ++ [Event.close] := by
      simp [runMain, h1]
    constructor
    · rw [htrace, List.countP_append, hzero]
      rfl
    · intro _
      rw [htrace]
      simp only [writes, List.filterMap_append]
      have hnil : List.filterMap writeMsg [Event.close] = [] := rfl
      rw [hnil]
      simpa [writes] using h2

/-- Witness for C8: interrupt after 3 iterations, with some writes failing:
one close and 6 write events. -/
theorem C8_close_once_witness :
    ((runMain ⟨true, true, 3, fun i => i % 2 == 0⟩).2.countP eventIsClose = 1) ∧
    (writes (runMain ⟨true, true, 3, fun i => i % 2 == 0⟩).2).length = 2 * 3 :=
  ⟨(C8_close_once _ rfl).1, (C8_close_once _ rfl).2 rfl⟩

/-- C9: the amplitude, period and count fields of the report round-trip
losslessly: for any value in [0, 0xFFFF] packed into its 2-byte little-endian
field, decoding the field back yields the value. -/
theorem C9_roundtrip (pid amplitude period cnt : Nat) (hb : pid ≤ 0xff)
    (ha : amplitude ≤ 0xffff) (hp : period ≤ 0xffff) (hc : cnt ≤ 0xffff) :
    ∃ msg : List Nat,
      buildMessage pid amplitude period cnt = some msg ∧
      decodeU16LE (msg.getD 3 0) (msg.getD 4 0) = amplitude ∧
      decodeU16LE (msg.getD 5 0) (msg.getD 6 0) = period ∧
      decodeU16LE (msg.getD 7 0) (msg.getD 8 0) = cnt := by
  refine ⟨fullMessage pid amplitude period cnt,
    buildMessage_eq pid amplitude period cnt hb ha hp hc, ?_, ?_, ?_⟩ <;>
  · show decodeU16LE _ _ = _
    simp only [fullMessage, List.cons_append, List.getD_cons_succ, List.getD_cons_zero,
      decodeU16LE]
    omega

/-- Witness for C9 at the example parameters. -/
theorem C9_roundtrip_witness :
    ∃ msg : List Nat,
      buildMessage 1 0x8000 0x0032 4000 = some msg ∧
      decodeU16LE (msg.getD 3 0) (msg.getD 4 0) = 0x8000 ∧
      decodeU16LE (msg.getD 5 0) (msg.getD 6 0) = 0x0032 ∧
      decodeU16LE (msg.getD 7 0) (msg.getD 8 0) = 4000 :=
  C9_roundtrip 1 0x8000 0x0032 4000 (by norm_num) (by norm_num) (by norm_num)
    (by norm_num)

/-- C10: any pad selector other than 'both' and 'left' — 'right' included, as
well as misspellings and arbitrary strings — yields exactly one 64-byte report
whose pad byte is 0x00 (right): unrecognized selectors silently default to the
right pad instead of being rejected. -/
theorem C10_default_right (pad : String) (h1 : pad ≠ "both") (h2 : pad ≠ "left")
    (fails : Nat → Bool) (idx amplitude period cnt : Nat)
    (ha : amplitude ≤ 0xffff) (hp : period ≤ 0xffff) (hc : cnt ≤ 0xffff) :
    ∃ evs : List Event, ∃ idx' : Nat,
      send_haptic_pulse fails idx pad amplitude period cnt = some (evs, idx') ∧
      writes evs = [fullMessage 0x00 amplitude period cnt] ∧
      (fullMessage 0x00 amplitude period cnt).length = 64 ∧
      (fullMessage 0x00 amplitude period cnt).getD 2 0 = 0x00 := by
  have hpads : padIds pad = [0x00] := by simp [padIds, h1, h2]
  obtain ⟨evs, g1, g2, -, -⟩ := sendPads_spec fails amplitude period cnt ha hp hc
    (padIds pad) (padIds_le pad) idx
  refine ⟨evs, idx + (padIds pad).length, g1, ?_, fullMessage_length _ _ _ _,
    fullMessage_getD2 _ _ _ _⟩
  rw [g2, hpads]
  rfl

/-- Witness for C10 at pad='oops' (an arbitrary unrecognized selector). -/
theorem C10_default_right_witness :
    ∃ evs : List Event, ∃ idx' : Nat,
      send_haptic_pulse (fun _ => false) 0 "oops" 0x8000 0x0032 4000 =
        some (evs, idx') ∧
      writes evs = [fullMessage 0x00 0x8000 0x0032 4000] ∧
      (fullMessage 0x00 0x8000 0x0032 4000).length = 64 ∧
      (fullMessage 0x00 0x8000 0x0032 4000).getD 2 0 = 0x00 :=
  C10_default_right "oops" (by decide) (by decide) (fun _ => false) 0
    0x8000 0x0032 4000 (by norm_num) (by norm_num) (by norm_num)
